import Mathlib

/-
Verification of the differential-flatness controller plugin
(DF_controller_plugin.cpp) against its natural-language specification.
The plugin state machine and the trajectory control law are embedded
shallowly: doubles become real numbers, the mutable plugin members become
the fields of an explicit state record, and each member function becomes a
state-passing function.
-/

namespace DFC

noncomputable section

/-- Real 3-vector, the embedding of an Eigen Vector3d. -/
structure Vec3 where
  x : ℝ
  y : ℝ
  z : ℝ

/-- The zero vector (Eigen Vector3d Zero). -/
def Vec3.zero : Vec3 := ⟨0, 0, 0⟩

/-- Componentwise sum. -/
def Vec3.add (a b : Vec3) : Vec3 := ⟨a.x + b.x, a.y + b.y, a.z + b.z⟩

/-- Componentwise difference. -/
def Vec3.sub (a b : Vec3) : Vec3 := ⟨a.x - b.x, a.y - b.y, a.z - b.z⟩

/-- Scalar multiple. -/
def Vec3.smul (c : ℝ) (a : Vec3) : Vec3 := ⟨c * a.x, c * a.y, c * a.z⟩

/-- Componentwise negation. -/
def Vec3.neg (a : Vec3) : Vec3 := ⟨-a.x, -a.y, -a.z⟩

/-- Dot product. -/
def Vec3.dot (a b : Vec3) : ℝ := a.x * b.x + a.y * b.y + a.z * b.z

/-- Cross product, following Eigen cross. -/
def Vec3.cross (a b : Vec3) : Vec3 :=
  ⟨a.y * b.z - a.z * b.y, a.z * b.x - a.x * b.z, a.x * b.y - a.y * b.x⟩

/-- Euclidean norm. -/
def Vec3.norm (a : Vec3) : ℝ := Real.sqrt (a.dot a)

/-- Eigen normalized: the vector divided by its norm. -/
def Vec3.normalized (a : Vec3) : Vec3 := Vec3.smul (1 / a.norm) a

/-- Real 3 by 3 matrix with explicit entries, the embedding of Eigen Matrix3d. -/
structure Mat3 where
  m00 : ℝ
  m01 : ℝ
  m02 : ℝ
  m10 : ℝ
  m11 : ℝ
  m12 : ℝ
  m20 : ℝ
  m21 : ℝ
  m22 : ℝ

/-- Matrix transpose. -/
def Mat3.transpose (A : Mat3) : Mat3 :=
  ⟨A.m00, A.m10, A.m20, A.m01, A.m11, A.m21, A.m02, A.m12, A.m22⟩

/-- Matrix product. -/
def Mat3.mul (A B : Mat3) : Mat3 :=
  ⟨A.m00 * B.m00 + A.m01 * B.m10 + A.m02 * B.m20,
   A.m00 * B.m01 + A.m01 * B.m11 + A.m02 * B.m21,
   A.m00 * B.m02 + A.m01 * B.m12 + A.m02 * B.m22,
   A.m10 * B.m00 + A.m11 * B.m10 + A.m12 * B.m20,
   A.m10 * B.m01 + A.m11 * B.m11 + A.m12 * B.m21,
   A.m10 * B.m02 + A.m11 * B.m12 + A.m12 * B.m22,
   A.m20 * B.m00 + A.m21 * B.m10 + A.m22 * B.m20,
   A.m20 * B.m01 + A.m21 * B.m11 + A.m22 * B.m21,
   A.m20 * B.m02 + A.m21 * B.m12 + A.m22 * B.m22⟩

/-- Entrywise matrix difference. -/
def Mat3.sub (A B : Mat3) : Mat3 :=
  ⟨A.m00 - B.m00, A.m01 - B.m01, A.m02 - B.m02,
   A.m10 - B.m10, A.m11 - B.m11, A.m12 - B.m12,
   A.m20 - B.m20, A.m21 - B.m21, A.m22 - B.m22⟩

/-- Column 2 of a matrix (Eigen col 2). -/
def Mat3.col2 (A : Mat3) : Vec3 := ⟨A.m02, A.m12, A.m22⟩

/-- Build a matrix from its three columns, as the R_des construction does. -/
def Mat3.fromCols (c0 c1 c2 : Vec3) : Mat3 :=
  ⟨c0.x, c1.x, c2.x, c0.y, c1.y, c2.y, c0.z, c1.z, c2.z⟩

/-- The identity matrix. -/
def idMat : Mat3 := ⟨1, 0, 0, 0, 1, 0, 0, 0, 1⟩

/-- Quaternion with components x, y, z, w, the embedding of tf2 Quaternion. -/
structure Quat where
  x : ℝ
  y : ℝ
  z : ℝ
  w : ℝ

/-- The identity quaternion. -/
def Quat.identity : Quat := ⟨0, 0, 0, 1⟩

/-- Modelled from the spec: the rotation matrix of the measured attitude
quaternion, following the conversion of the external tf2 collaborator
(Matrix3x3 setRotation), which is out of scope for the repository sources. -/
def quatToRotMatrix (q : Quat) : Mat3 :=
  let d := q.x * q.x + q.y * q.y + q.z * q.z + q.w * q.w
  let s := 2 / d
  let xs := q.x * s
  let ys := q.y * s
  let zs := q.z * s
  let wx := q.w * xs
  let wy := q.w * ys
  let wz := q.w * zs
  let xx := q.x * xs
  let xy := q.x * ys
  let xz := q.x * zs
  let yy := q.y * ys
  let yz := q.y * zs
  let zz := q.z * zs
  ⟨1 - (yy + zz), xy - wz, xz + wy,
   xy + wz, 1 - (xx + zz), yz - wx,
   xz - wy, yz + wx, 1 - (xx + yy)⟩

/-- Two-argument arctangent, the embedding of atan2 used by the external
yaw extraction. -/
def atan2 (y x : ℝ) : ℝ :=
  if 0 < x then Real.arctan (y / x)
  else if x < 0 then
    (if 0 ≤ y then Real.arctan (y / x) + Real.pi else Real.arctan (y / x) - Real.pi)
  else
    (if 0 < y then Real.pi / 2 else if y < 0 then -(Real.pi / 2) else 0)

/-- Modelled from the spec: yaw angle extracted from a rotation matrix,
following the external tf2 collaborator (Matrix3x3 getRPY, first solution),
which is out of scope for the repository sources; only the yaw output is
consumed by the plugin. -/
def matrixYaw (m : Mat3) : ℝ :=
  if 1 ≤ |m.m20| then 0
  else
    atan2 (m.m10 / Real.cos (-Real.arcsin m.m20)) (m.m00 / Real.cos (-Real.arcsin m.m20))

/-- Modelled from the spec: yaw extraction from a quaternion, as done by the
external as2 frame helper used in resetReferences (attitude to RPY, yaw part). -/
def getYawFromQuaternion (q : Quat) : ℝ := matrixYaw (quatToRotMatrix q)

/-- Modelled from the spec: the external force-error calculator
(PIDController3D): per-axis proportional, integral and derivative gains,
an anti-windup threshold, a smoothing factor, an integral-reset flag and an
internal integral accumulator. -/
structure PIDController3D where
  kp : Vec3
  ki : Vec3
  kd : Vec3
  antiwindup_cte : ℝ
  alpha : ℝ
  reset_integral_flag : Bool
  integral_accum : Vec3

/-- Modelled from the spec: the compute operation of the force-error
calculator, taking (position, reference position, velocity, reference
velocity) to a 3D force vector; per axis it combines the proportional gain
on the position error, the integral gain on the accumulated history and the
derivative gain on the velocity error. -/
def PIDController3D.computeControl (pid : PIDController3D)
    (pos_state pos_ref vel_state vel_ref : Vec3) : Vec3 :=
  let e_p := Vec3.sub pos_ref pos_state
  let e_v := Vec3.sub vel_ref vel_state
  ⟨pid.kp.x * e_p.x + pid.ki.x * pid.integral_accum.x + pid.kd.x * e_v.x,
   pid.kp.y * e_p.y + pid.ki.y * pid.integral_accum.y + pid.kd.y * e_v.y,
   pid.kp.z * e_p.z + pid.ki.z * pid.integral_accum.z + pid.kd.z * e_v.z⟩

/-- Modelled from the spec: the reset operation of the force-error
calculator clears its internal integrator and history. -/
def PIDController3D.resetController (pid : PIDController3D) : PIDController3D :=
  { pid with integral_accum := Vec3.zero }

/-- Modelled from the spec: numeric constant of the external control mode
message for the hover control mode. -/
def HOVER : Nat := 1

/-- Modelled from the spec: numeric constant of the external control mode
message for the trajectory control mode. -/
def TRAJECTORY : Nat := 7

/-- Modelled from the spec: numeric constant of the external control mode
message for the yaw angle mode. -/
def YAW_ANGLE : Nat := 0

/-- Modelled from the spec: numeric constant of the external control mode
message for the yaw speed mode. -/
def YAW_SPEED : Nat := 1

/-- Modelled from the spec: numeric constant of the external control mode
message for the fixed local ENU reference frame. -/
def LOCAL_ENU_FRAME : Nat := 0

/-- The mode tuple of the external control mode message. -/
structure ControlMode where
  control_mode : Nat
  yaw_mode : Nat
  reference_frame : Nat

/-- The three readiness flags of the plugin. -/
structure Flags where
  parameters_read : Bool
  state_received : Bool
  ref_received : Bool

/-- Modelled from the spec: the vehicle state record declared in the plugin
header (absent from src); position, velocity and attitude of the vehicle. -/
structure UAV_state where
  position : Vec3
  velocity : Vec3
  attitude_state : Quat

/-- Modelled from the spec: the default-constructed vehicle state used as the
neutral reset value; zero position and velocity and identity attitude. -/
def UAV_state_default : UAV_state := ⟨Vec3.zero, Vec3.zero, Quat.identity⟩

/-- The control reference record: desired position, velocity, acceleration
and the yaw triple (angle, rate, angular acceleration). -/
structure Control_ref where
  position : Vec3
  velocity : Vec3
  acceleration : Vec3
  yaw : Vec3

/-- The output command record: body rates PQR and scalar thrust. -/
structure Acro_command where
  PQR : Vec3
  thrust : ℝ

/-- Modelled from the spec: gravity compensation vector declared in the
plugin header (absent from src); gravitational acceleration of 9.81 along
the world z-axis. -/
def gravitational_accel : Vec3 := ⟨0, 0, 9.81⟩

/-- Modelled from the spec: the initial pending parameter list declared in
the plugin header (absent from src); the mass parameter and the fifteen
trajectory_control entries of the dispatch table. -/
def parameters_list : List String :=
  ["mass",
   "trajectory_control.reset_integral",
   "trajectory_control.antiwindup_cte",
   "trajectory_control.alpha",
   "trajectory_control.kp.x",
   "trajectory_control.kp.y",
   "trajectory_control.kp.z",
   "trajectory_control.ki.x",
   "trajectory_control.ki.y",
   "trajectory_control.ki.z",
   "trajectory_control.kd.x",
   "trajectory_control.kd.y",
   "trajectory_control.kd.z",
   "trajectory_control.roll_control.kp",
   "trajectory_control.pitch_control.kp",
   "trajectory_control.yaw_control.kp"]

/-- Modelled from the spec: a typed parameter value of the host framework;
parameters carry either a double or a boolean. -/
inductive ParamValue where
  | d (v : ℝ)
  | b (v : Bool)

/-- Modelled from the spec: typed double access to a parameter value; the
host framework guarantees the declared type, so the boolean case is never
exercised for double parameters. -/
def ParamValue.toDouble : ParamValue → ℝ
  | .d v => v
  | .b _ => 0

/-- Modelled from the spec: typed boolean access to a parameter value. -/
def ParamValue.toBool : ParamValue → Bool
  | .b v => v
  | .d _ => false

/-- A named parameter update of the host framework. -/
structure Param where
  name : String
  value : ParamValue

/-- The result record of the parameter callback. -/
structure SetParametersResult where
  successful : Bool
  reason : String

/-- Modelled from the spec: reference message of the trajectory source; four
positions, velocities and accelerations where index 3 carries the yaw data. -/
structure TrajectoryPoint where
  positions : Fin 4 → ℝ
  velocities : Fin 4 → ℝ
  accelerations : Fin 4 → ℝ

/-- The whole mutable state of the plugin instance. -/
structure PluginState where
  flags : Flags
  pid : PIDController3D
  parameters_to_read : List String
  mass : ℝ
  Kp_ang : Vec3
  control_mode_in : ControlMode
  control_mode_out : ControlMode
  uav_state : UAV_state
  control_ref : Control_ref
  control_command : Acro_command

/-- The dot character. -/
def dotChar : Char := '.'

/-- Split a character list at the first dot. -/
def splitAtDot : List Char → Option (List Char × List Char)
  | [] => none
  | c :: rest =>
    if c = dotChar then some ([], rest)
    else
      match splitAtDot rest with
      | none => none
      | some (a, b) => some (c :: a, b)

/-- The C++ split of a parameter name at its first dot: substr before the
first dot and substr after it; when no dot occurs, npos arithmetic makes
both parts the whole name. -/
def dotSplit (name : String) : String × String :=
  match splitAtDot name.data with
  | none => (name, name)
  | some (a, b) => (⟨a⟩, ⟨b⟩)

/-- Embedding of Plugin checkParamList: erase the parameter from the pending
list when present, then set the all-read flag when the list is empty. -/
def checkParamList (param : String) (lst : List String) (allRead : Bool) :
    List String × Bool :=
  let lst2 := if param ∈ lst then lst.filter (fun q => q != param) else lst
  (lst2, if lst2.length = 0 then true else allRead)

/-- Embedding of Plugin updateDFParameter: the dispatch table from
trajectory_control subnames to gain fields. -/
def updateDFParameter (s : PluginState) (n : String) (v : ParamValue) :
    PluginState :=
  if n = "reset_integral" then
    { s with pid := { s.pid with reset_integral_flag := v.toBool } }
  else if n = "antiwindup_cte" then
    { s with pid := { s.pid with antiwindup_cte := v.toDouble } }
  else if n = "alpha" then
    { s with pid := { s.pid with alpha := v.toDouble } }
  else if n = "kp.x" then
    { s with pid := { s.pid with kp := { s.pid.kp with x := v.toDouble } } }
  else if n = "kp.y" then
    { s with pid := { s.pid with kp := { s.pid.kp with y := v.toDouble } } }
  else if n = "kp.z" then
    { s with pid := { s.pid with kp := { s.pid.kp with z := v.toDouble } } }
  else if n = "ki.x" then
    { s with pid := { s.pid with ki := { s.pid.ki with x := v.toDouble } } }
  else if n = "ki.y" then
    { s with pid := { s.pid with ki := { s.pid.ki with y := v.toDouble } } }
  else if n = "ki.z" then
    { s with pid := { s.pid with ki := { s.pid.ki with z := v.toDouble } } }
  else if n = "kd.x" then
    { s with pid := { s.pid with kd := { s.pid.kd with x := v.toDouble } } }
  else if n = "kd.y" then
    { s with pid := { s.pid with kd := { s.pid.kd with y := v.toDouble } } }
  else if n = "kd.z" then
    { s with pid := { s.pid with kd := { s.pid.kd with z := v.toDouble } } }
  else if n = "roll_control.kp" then
    { s with Kp_ang := { s.Kp_ang with x := v.toDouble } }
  else if n = "pitch_control.kp" then
    { s with Kp_ang := { s.Kp_ang with y := v.toDouble } }
  else if n = "yaw_control.kp" then
    { s with Kp_ang := { s.Kp_ang with z := v.toDouble } }
  else s

/-- The guarded checkParamList call shared by both routed branches of the
parameter callback: only while the parameters-read flag is still false is
the pending list updated and the flag possibly set. -/
def applyCheck (s : PluginState) (nm : String) : PluginState :=
  if s.flags.parameters_read then s
  else
    let r := checkParamList nm s.parameters_to_read s.flags.parameters_read
    { s with parameters_to_read := r.1,
             flags := { s.flags with parameters_read := r.2 } }

/-- The body of the parameter callback loop for one parameter: the mass name
updates the scalar mass, a trajectory_control prefix routes the subname to
the gain dispatch table, anything else is ignored. -/
def processParam (s : PluginState) (p : Param) : PluginState :=
  if p.name = "mass" then
    applyCheck { s with mass := p.value.toDouble } p.name
  else if (dotSplit p.name).1 = "trajectory_control" then
    applyCheck (updateDFParameter s (dotSplit p.name).2 p.value) p.name
  else s

/-- Embedding of Plugin parametersCallback: fold the loop body over the
batch and always report success. -/
def parametersCallback (s : PluginState) (ps : List Param) :
    PluginState × SetParametersResult :=
  (ps.foldl processParam s, ⟨true, "success"⟩)

/-- Embedding of Plugin resetState: default-construct the vehicle state. -/
def resetState (s : PluginState) : PluginState :=
  { s with uav_state := UAV_state_default }

/-- Embedding of Plugin resetReferences: position reference from the current
vehicle state, zero velocity and acceleration references, yaw reference from
the current attitude. -/
def resetReferences (s : PluginState) : PluginState :=
  { s with control_ref :=
      { position := s.uav_state.position,
        velocity := Vec3.zero,
        acceleration := Vec3.zero,
        yaw := ⟨getYawFromQuaternion s.uav_state.attitude_state, 0, 0⟩ } }

/-- Embedding of Plugin resetCommands: zero body rates and zero thrust. -/
def resetCommands (s : PluginState) : PluginState :=
  { s with control_command := { PQR := Vec3.zero, thrust := 0 } }

/-- Embedding of Plugin reset: reset state, references and commands and
clear the force-error calculator. -/
def reset (s : PluginState) : PluginState :=
  let s1 := resetCommands (resetReferences (resetState s))
  { s1 with pid := s1.pid.resetController }

/-- Embedding of Plugin ownInitialize: clear the flags, restore the pending
parameter list and reset transient state. -/
def ownInitialize (s : PluginState) : PluginState :=
  reset { s with flags := ⟨false, false, false⟩,
                 parameters_to_read := parameters_list }

/-- Embedding of Plugin updateState: store the position, the velocity
converted to the ENU frame by the external transform service (passed here as
a function), and the attitude, then set the state-received flag. -/
def updateState (s : PluginState) (tfConvert : Vec3 → Vec3)
    (pos : Vec3) (twist_flu : Vec3) (att : Quat) : PluginState :=
  { s with
    uav_state := { position := pos, velocity := tfConvert twist_flu,
                   attitude_state := att },
    flags := { s.flags with state_received := true } }

/-- Embedding of Plugin updateReference: ignored unless the active control
mode is trajectory; otherwise fully replace the stored reference from the
message and set the reference-received flag. -/
def updateReference (s : PluginState) (m : TrajectoryPoint) : PluginState :=
  if s.control_mode_in.control_mode ≠ TRAJECTORY then s
  else
    { s with
      control_ref :=
        { position := ⟨m.positions 0, m.positions 1, m.positions 2⟩,
          velocity := ⟨m.velocities 0, m.velocities 1, m.velocities 2⟩,
          acceleration := ⟨m.accelerations 0, m.accelerations 1, m.accelerations 2⟩,
          yaw := ⟨m.positions 3, m.velocities 3, m.accelerations 3⟩ },
      flags := { s.flags with ref_received := true } }

/-- Embedding of Plugin setMode: the hover control mode forces yaw angle
mode and the fixed local ENU frame; any other requested mode is stored
verbatim and clears the state-received and reference-received flags; in all
cases the output mode is stored, transient state is reset and true is
returned. -/
def setMode (s : PluginState) (in_mode out_mode : ControlMode) :
    PluginState × Bool :=
  let s1 :=
    if in_mode.control_mode = HOVER then
      { s with control_mode_in :=
          ⟨in_mode.control_mode, YAW_ANGLE, LOCAL_ENU_FRAME⟩ }
    else
      { s with flags := { s.flags with ref_received := false,
                                       state_received := false },
               control_mode_in := in_mode }
  let s2 := { s1 with control_mode_out := out_mode }
  (reset s2, true)

/-- Embedding of Plugin getForce: force-error calculator output plus mass
times acceleration reference plus mass times the gravity vector. -/
def getForce (pid : PIDController3D) (mass : ℝ) (dt : ℝ)
    (pos_state vel_state pos_ref vel_ref acc_ref : Vec3) : Vec3 :=
  let force_error := pid.computeControl pos_state pos_ref vel_state vel_ref
  let force_acceleration := Vec3.smul mass acc_ref
  let force_gravity := Vec3.smul mass gravitational_accel
  Vec3.add (Vec3.add force_error force_acceleration) force_gravity

/-- The rotation error matrix of the control law: transpose of the desired
rotation times the current rotation minus transpose of the current rotation
times the desired rotation. -/
def rotationErrorMat (R_des R : Mat3) : Mat3 :=
  Mat3.sub (Mat3.mul R_des.transpose R) (Mat3.mul R.transpose R_des)

/-- The orientation error vector of the control law: half the off-diagonal
extraction (entries 21, 02, 10) of the rotation error matrix. -/
def rotationError (R_des R : Mat3) : Vec3 :=
  Vec3.smul (1 / 2)
    ⟨(rotationErrorMat R_des R).m21,
     (rotationErrorMat R_des R).m02,
     (rotationErrorMat R_des R).m10⟩

/-- Embedding of Plugin computeTrajectoryControl: desired force from
getForce, desired attitude from the yaw heading and the normalized force,
orientation error from the rotation matrices, thrust as the projection of
the desired force on the current body z-axis and body rates as the negated
angular gains times the orientation error. -/
def computeTrajectoryControl (pid : PIDController3D) (mass : ℝ) (Kp_ang : Vec3)
    (dt : ℝ) (pos_state vel_state : Vec3) (attitude_state : Quat)
    (pos_ref vel_ref acc_ref : Vec3) (yaw_angle_ref : ℝ) : Acro_command :=
  let desired_force := getForce pid mass dt pos_state vel_state pos_ref vel_ref acc_ref
  let rot := quatToRotMatrix attitude_state
  let xc_des : Vec3 := ⟨Real.cos yaw_angle_ref, Real.sin yaw_angle_ref, 0⟩
  let zb_des := desired_force.normalized
  let yb_des := (zb_des.cross xc_des).normalized
  let xb_des := (yb_des.cross zb_des).normalized
  let R_des := Mat3.fromCols xb_des yb_des zb_des
  let E_rot := rotationError R_des rot
  { thrust := desired_force.dot (rot.col2.normalized),
    PQR := ⟨-(Kp_ang.x * E_rot.x), -(Kp_ang.y * E_rot.y), -(Kp_ang.z * E_rot.z)⟩ }

/-- The per-tick outcome of the compute step: the three distinguishable
not-ready failures, the two unknown-mode failures, or a command. -/
inductive ComputeResult where
  | notReadyState
  | notReadyParams
  | notReadyRef
  | unknownYawMode
  | unknownControlMode
  | ok (pqr : Vec3) (thrust : ℝ)

/-- Whether an outcome is one of the three readiness-gate failures. -/
def ComputeResult.isNotReady : ComputeResult → Bool
  | .notReadyState => true
  | .notReadyParams => true
  | .notReadyRef => true
  | _ => false

/-- The yaw-speed branch of the compute step: overwrite the stored yaw angle
reference with the yaw extracted from the measured attitude advanced by the
yaw rate reference times dt. -/
def integrateYawRef (s : PluginState) (dt : ℝ) : PluginState :=
  { s with control_ref :=
      { s.control_ref with yaw :=
          { s.control_ref.yaw with
            x := matrixYaw (quatToRotMatrix s.uav_state.attitude_state)
                  + s.control_ref.yaw.y * dt } } }

/-- The control-mode switch at the end of the compute step: the trajectory
mode stores the command computed by the control law and emits it; any other
mode fails with the unknown-control-mode outcome. -/
def computeOutputControlMode (s : PluginState) (dt : ℝ) :
    PluginState × ComputeResult :=
  if s.control_mode_in.control_mode = TRAJECTORY then
    let cmd := computeTrajectoryControl s.pid s.mass s.Kp_ang dt
      s.uav_state.position s.uav_state.velocity s.uav_state.attitude_state
      s.control_ref.position s.control_ref.velocity s.control_ref.acceleration
      s.control_ref.yaw.x
    let s2 := { s with control_command := cmd }
    (s2, .ok s2.control_command.PQR s2.control_command.thrust)
  else (s, .unknownControlMode)

/-- Embedding of Plugin computeOutput: the readiness gate in priority order
(state, parameters, reference), then the command reset, the yaw mode switch
and the control mode switch. -/
def computeOutput (s : PluginState) (dt : ℝ) : PluginState × ComputeResult :=
  if s.flags.state_received = false then (s, .notReadyState)
  else if s.flags.parameters_read = false then (s, .notReadyParams)
  else if s.flags.ref_received = false then (s, .notReadyRef)
  else
    let s1 := resetCommands s
    if s1.control_mode_in.yaw_mode = YAW_ANGLE then
      computeOutputControlMode s1 dt
    else if s1.control_mode_in.yaw_mode = YAW_SPEED then
      computeOutputControlMode (integrateYawRef s1 dt) dt
    else (s1, .unknownYawMode)

/-- A concrete pid value with all gains zero, for witnesses and scenarios. -/
def zeroGainPid : PIDController3D :=
  ⟨Vec3.zero, Vec3.zero, Vec3.zero, 0, 0, false, Vec3.zero⟩

/-- A concrete plugin state used as base value for witnesses. -/
def baseState : PluginState :=
  { flags := ⟨false, false, false⟩,
    pid := zeroGainPid,
    parameters_to_read := parameters_list,
    mass := 1,
    Kp_ang := ⟨1, 1, 1⟩,
    control_mode_in := ⟨TRAJECTORY, YAW_ANGLE, LOCAL_ENU_FRAME⟩,
    control_mode_out := ⟨0, 0, 0⟩,
    uav_state := UAV_state_default,
    control_ref := ⟨Vec3.zero, Vec3.zero, Vec3.zero, Vec3.zero⟩,
    control_command := ⟨Vec3.zero, 0⟩ }

/-- A ready plugin state in yaw-speed mode with unit yaw rate reference and
a nonzero stored command, used by witnesses and the C5 counterexample. -/
def rateState : PluginState :=
  { baseState with
    flags := ⟨true, true, true⟩,
    control_mode_in := ⟨TRAJECTORY, YAW_SPEED, LOCAL_ENU_FRAME⟩,
    control_ref := ⟨Vec3.zero, Vec3.zero, Vec3.zero, ⟨0, 1, 0⟩⟩ }

/-- A ready plugin state with an unrecognized yaw mode and a nonzero stored
command. -/
def badYawState : PluginState :=
  { baseState with
    flags := ⟨true, true, true⟩,
    control_mode_in := ⟨TRAJECTORY, 42, LOCAL_ENU_FRAME⟩,
    control_command := ⟨Vec3.zero, 5⟩ }

/-- A ready plugin state in yaw-speed mode whose control mode is not
recognized by the control mode switch. -/
def rateBadState : PluginState :=
  { rateState with control_mode_in := ⟨3, YAW_SPEED, LOCAL_ENU_FRAME⟩ }

/-- A plugin state whose active control mode is hover. -/
def hoverModeState : PluginState :=
  { baseState with control_mode_in := ⟨HOVER, YAW_ANGLE, LOCAL_ENU_FRAME⟩ }

/-- The fifteen trajectory_control subnames recognized by the gain dispatch
table. -/
def recognizedSubnames : List String :=
  ["reset_integral", "antiwindup_cte", "alpha",
   "kp.x", "kp.y", "kp.z", "ki.x", "ki.y", "ki.z", "kd.x", "kd.y", "kd.z",
   "roll_control.kp", "pitch_control.kp", "yaw_control.kp"]

/-- One parameter batch covering every initially pending name. -/
def fullBatch : List Param :=
  parameters_list.map (fun nm => ⟨nm, ParamValue.d 1⟩)

/-- The invariant tying a plugin state to the list of parameter names seen
so far: the parameters-read flag holds exactly when every initially pending
name has been seen, and while it is false the pending list holds exactly the
unseen initially pending names. -/
def GoodPending (s : PluginState) (seen : List String) : Prop :=
  (s.flags.parameters_read = true ↔ ∀ n ∈ parameters_list, n ∈ seen)
  ∧ (s.flags.parameters_read = false →
      ∀ n, n ∈ s.parameters_to_read ↔ (n ∈ parameters_list ∧ n ∉ seen))

/-- Fold of the parameter callback over a list of batches. -/
def runBatches (s : PluginState) (batches : List (List Param)) : PluginState :=
  batches.foldl (fun t b => (parametersCallback t b).1) s

/-- All parameter names occurring in a list of batches, in order. -/
def batchNames (batches : List (List Param)) : List String :=
  batches.foldr (fun b acc => b.map Param.name ++ acc) []

end

theorem rotationError_self (R : Mat3) : rotationError R R = Vec3.zero := by
  simp only [rotationError, rotationErrorMat, Mat3.mul, Mat3.transpose, Mat3.sub,
    Vec3.smul, Vec3.zero, Vec3.mk.injEq]
  refine ⟨by ring, by ring, by ring⟩

theorem quatToRotMatrix_identity : quatToRotMatrix Quat.identity = idMat := by
  simp only [quatToRotMatrix, Quat.identity, idMat, Mat3.mk.injEq]
  norm_num

theorem matrixYaw_idMat : matrixYaw idMat = 0 := by
  simp only [matrixYaw, idMat, atan2]
  norm_num [Real.arcsin_zero, Real.cos_zero, Real.arctan_zero]

theorem computeOutput_notReady1 (s : PluginState) (dt : ℝ)
    (h : s.flags.state_received = false) :
    computeOutput s dt = (s, ComputeResult.notReadyState) := by
  simp [computeOutput, h]

theorem computeOutput_notReady2 (s : PluginState) (dt : ℝ)
    (h1 : s.flags.state_received = true) (h : s.flags.parameters_read = false) :
    computeOutput s dt = (s, ComputeResult.notReadyParams) := by
  simp [computeOutput, h1, h]

theorem computeOutput_notReady3 (s : PluginState) (dt : ℝ)
    (h1 : s.flags.state_received = true) (h2 : s.flags.parameters_read = true)
    (h : s.flags.ref_received = false) :
    computeOutput s dt = (s, ComputeResult.notReadyRef) := by
  simp [computeOutput, h1, h2, h]

theorem computeOutput_ready (s : PluginState) (dt : ℝ)
    (h1 : s.flags.state_received = true) (h2 : s.flags.parameters_read = true)
    (h3 : s.flags.ref_received = true) :
    computeOutput s dt =
      if s.control_mode_in.yaw_mode = YAW_ANGLE then
        computeOutputControlMode (resetCommands s) dt
      else if s.control_mode_in.yaw_mode = YAW_SPEED then
        computeOutputControlMode (integrateYawRef (resetCommands s) dt) dt
      else (resetCommands s, ComputeResult.unknownYawMode) := by
  have n1 : ¬(s.flags.state_received = false) := by simp [h1]
  have n2 : ¬(s.flags.parameters_read = false) := by simp [h2]
  have n3 : ¬(s.flags.ref_received = false) := by simp [h3]
  unfold computeOutput
  rw [if_neg n1, if_neg n2, if_neg n3]
  rfl

theorem computeOutputControlMode_traj (s : PluginState) (dt : ℝ)
    (h : s.control_mode_in.control_mode = TRAJECTORY) :
    computeOutputControlMode s dt =
      ({ s with
         control_command :=
          computeTrajectoryControl s.pid s.mass s.Kp_ang dt
            s.uav_state.position s.uav_state.velocity s.uav_state.attitude_state
            s.control_ref.position s.control_ref.velocity
            s.control_ref.acceleration s.control_ref.yaw.x },
       ComputeResult.ok
         (computeTrajectoryControl s.pid s.mass s.Kp_ang dt
           s.uav_state.position s.uav_state.velocity s.uav_state.attitude_state
           s.control_ref.position s.control_ref.velocity
           s.control_ref.acceleration s.control_ref.yaw.x).PQR
         (computeTrajectoryControl s.pid s.mass s.Kp_ang dt
           s.uav_state.position s.uav_state.velocity s.uav_state.attitude_state
           s.control_ref.position s.control_ref.velocity
           s.control_ref.acceleration s.control_ref.yaw.x).thrust) := by
  unfold computeOutputControlMode
  rw [if_pos h]

theorem computeOutputControlMode_other (s : PluginState) (dt : ℝ)
    (h : s.control_mode_in.control_mode ≠ TRAJECTORY) :
    computeOutputControlMode s dt = (s, ComputeResult.unknownControlMode) := by
  unfold computeOutputControlMode
  rw [if_neg h]

theorem computeOutputControlMode_ref (s : PluginState) (dt : ℝ) :
    (computeOutputControlMode s dt).1.control_ref = s.control_ref := by
  unfold computeOutputControlMode
  split_ifs <;> rfl

theorem computeOutputControlMode_flags (s : PluginState) (dt : ℝ) :
    (computeOutputControlMode s dt).1.flags = s.flags := by
  unfold computeOutputControlMode
  split_ifs <;> rfl

theorem computeOutputControlMode_notReady (s : PluginState) (dt : ℝ) :
    (computeOutputControlMode s dt).2.isNotReady = false := by
  unfold computeOutputControlMode
  split_ifs <;> rfl

theorem isNotReady_false_ne (r : ComputeResult) (h : r.isNotReady = false) :
    r ≠ ComputeResult.notReadyState ∧ r ≠ ComputeResult.notReadyParams ∧
      r ≠ ComputeResult.notReadyRef := by
  cases r <;> simp_all [ComputeResult.isNotReady]

theorem computeOutput_flags (s : PluginState) (dt : ℝ) :
    (computeOutput s dt).1.flags = s.flags := by
  cases hst : s.flags.state_received with
  | false => rw [computeOutput_notReady1 s dt hst]
  | true =>
    cases hp : s.flags.parameters_read with
    | false => rw [computeOutput_notReady2 s dt hst hp]
    | true =>
      cases hr : s.flags.ref_received with
      | false => rw [computeOutput_notReady3 s dt hst hp hr]
      | true =>
        rw [computeOutput_ready s dt hst hp hr]
        split_ifs
        · rw [computeOutputControlMode_flags]
          rfl
        · rw [computeOutputControlMode_flags]
          rfl
        · rfl

/-- Claim C1: the compute step fails with a not-ready outcome exactly when at
least one of the three readiness flags is false, and the checks are made in
the priority order state-received, parameters-complete, reference-received,
so each missing precondition is independently observable from the outcome. -/
theorem computeOutput_readiness_gate (s : PluginState) (dt : ℝ) :
    ((computeOutput s dt).2.isNotReady = true ↔
      ¬(s.flags.parameters_read = true ∧ s.flags.state_received = true ∧
        s.flags.ref_received = true)) ∧
    ((computeOutput s dt).2 = ComputeResult.notReadyState ↔
      s.flags.state_received = false) ∧
    ((computeOutput s dt).2 = ComputeResult.notReadyParams ↔
      (s.flags.state_received = true ∧ s.flags.parameters_read = false)) ∧
    ((computeOutput s dt).2 = ComputeResult.notReadyRef ↔
      (s.flags.state_received = true ∧ s.flags.parameters_read = true ∧
       s.flags.ref_received = false)) := by
  cases hst : s.flags.state_received with
  | false =>
    rw [computeOutput_notReady1 s dt hst]
    simp [ComputeResult.isNotReady, hst]
  | true =>
    cases hp : s.flags.parameters_read with
    | false =>
      rw [computeOutput_notReady2 s dt hst hp]
      simp [ComputeResult.isNotReady, hst, hp]
    | true =>
      cases hr : s.flags.ref_received with
      | false =>
        rw [computeOutput_notReady3 s dt hst hp hr]
        simp [ComputeResult.isNotReady, hst, hp, hr]
      | true =>
        rw [computeOutput_ready s dt hst hp hr]
        have hA := computeOutputControlMode_notReady (resetCommands s) dt
        have hB :=
          computeOutputControlMode_notReady (integrateYawRef (resetCommands s) dt) dt
        obtain ⟨a1, a2, a3⟩ := isNotReady_false_ne _ hA
        obtain ⟨b1, b2, b3⟩ := isNotReady_false_ne _ hB
        split_ifs <;> simp_all [ComputeResult.isNotReady]

theorem computeOutput_speed_yaw (s : PluginState) (dt : ℝ)
    (h1 : s.flags.state_received = true) (h2 : s.flags.parameters_read = true)
    (h3 : s.flags.ref_received = true)
    (hy : s.control_mode_in.yaw_mode = YAW_SPEED) :
    (computeOutput s dt).1.control_ref.yaw.x =
      matrixYaw (quatToRotMatrix s.uav_state.attitude_state) +
        s.control_ref.yaw.y * dt := by
  have hne : s.control_mode_in.yaw_mode ≠ YAW_ANGLE := by
    rw [hy]; decide
  rw [computeOutput_ready s dt h1 h2 h3, if_neg hne, if_pos hy,
    computeOutputControlMode_ref]
  rfl

/-- Claim C3: on a ready compute step, yaw mode angle leaves the stored
reference untouched and feeds the stored yaw angle to the control law, yaw
mode rate overwrites the working yaw angle with the measured yaw advanced by
the yaw rate reference times dt, and any other yaw mode fails with the
unknown-yaw-mode outcome and produces no command. -/
theorem computeOutput_yaw_modes (s : PluginState) (dt : ℝ)
    (h1 : s.flags.state_received = true) (h2 : s.flags.parameters_read = true)
    (h3 : s.flags.ref_received = true) :
    (s.control_mode_in.yaw_mode = YAW_ANGLE →
      (computeOutput s dt).1.control_ref = s.control_ref ∧
      (s.control_mode_in.control_mode = TRAJECTORY →
        (computeOutput s dt).1.control_command =
          computeTrajectoryControl s.pid s.mass s.Kp_ang dt
            s.uav_state.position s.uav_state.velocity s.uav_state.attitude_state
            s.control_ref.position s.control_ref.velocity
            s.control_ref.acceleration s.control_ref.yaw.x)) ∧
    (s.control_mode_in.yaw_mode = YAW_SPEED →
      (computeOutput s dt).1.control_ref.yaw.x =
        matrixYaw (quatToRotMatrix s.uav_state.attitude_state) +
          s.control_ref.yaw.y * dt) ∧
    (s.control_mode_in.yaw_mode ≠ YAW_ANGLE →
      s.control_mode_in.yaw_mode ≠ YAW_SPEED →
      computeOutput s dt = (resetCommands s, ComputeResult.unknownYawMode)) := by
  refine ⟨?_, ?_, ?_⟩
  · intro hy
    rw [computeOutput_ready s dt h1 h2 h3, if_pos hy]
    constructor
    · exact (computeOutputControlMode_ref (resetCommands s) dt).trans rfl
    · intro hc
      have hc2 : (resetCommands s).control_mode_in.control_mode = TRAJECTORY := hc
      rw [computeOutputControlMode_traj _ dt hc2]
      rfl
  · intro hy
    exact computeOutput_speed_yaw s dt h1 h2 h3 hy
  · intro hA hS
    rw [computeOutput_ready s dt h1 h2 h3, if_neg hA, if_neg hS]

/-- Claim C5 fails as stated: on a ready controller with an unrecognized yaw
mode the compute step fails, yet the stored command has been zeroed by the
command reset that precedes the yaw mode switch, so the internal state is
not left unchanged by the failing invocation. -/
theorem computeOutput_failure_mutates_command :
    (computeOutput badYawState 1).2 = ComputeResult.unknownYawMode ∧
    badYawState.control_command.thrust = 5 ∧
    (computeOutput badYawState 1).1.control_command.thrust = 0 ∧
    (computeOutput badYawState 1).1.control_command.thrust ≠
      badYawState.control_command.thrust := by
  have e1 : (computeOutput badYawState 1).1.control_command.thrust = 0 := rfl
  have e2 : badYawState.control_command.thrust = 5 := rfl
  refine ⟨rfl, e2, e1, ?_⟩
  rw [e1, e2]
  norm_num

/-- Claim C5 (amended): a failing compute step leaves the internal state
unchanged, except that an invocation which passes the readiness gate first
zeroes the stored command and, in yaw rate mode, overwrites the stored yaw
angle reference with the integrated value; no failing outcome carries a
command payload. -/
theorem computeOutput_failure_frame (s : PluginState) (dt : ℝ) :
    ((computeOutput s dt).2.isNotReady = true → (computeOutput s dt).1 = s) ∧
    ((computeOutput s dt).2 = ComputeResult.unknownYawMode →
      (computeOutput s dt).1 = resetCommands s) ∧
    ((computeOutput s dt).2 = ComputeResult.unknownControlMode →
      (s.control_mode_in.yaw_mode = YAW_ANGLE →
        (computeOutput s dt).1 = resetCommands s) ∧
      (s.control_mode_in.yaw_mode = YAW_SPEED →
        (computeOutput s dt).1 = integrateYawRef (resetCommands s) dt)) := by
  cases hst : s.flags.state_received with
  | false =>
    rw [computeOutput_notReady1 s dt hst]
    simp [ComputeResult.isNotReady]
  | true =>
    cases hp : s.flags.parameters_read with
    | false =>
      rw [computeOutput_notReady2 s dt hst hp]
      simp [ComputeResult.isNotReady]
    | true =>
      cases hr : s.flags.ref_received with
      | false =>
        rw [computeOutput_notReady3 s dt hst hp hr]
        simp [ComputeResult.isNotReady]
      | true =>
        rw [computeOutput_ready s dt hst hp hr]
        by_cases hy1 : s.control_mode_in.yaw_mode = YAW_ANGLE
        · rw [if_pos hy1]
          refine ⟨?_, ?_, ?_⟩
          · intro h
            rw [computeOutputControlMode_notReady] at h
            cases h
          · intro h
            by_cases hc : (resetCommands s).control_mode_in.control_mode = TRAJECTORY
            · rw [computeOutputControlMode_traj _ dt hc] at h
              exact ComputeResult.noConfusion h
            · rw [computeOutputControlMode_other _ dt hc] at h
              exact ComputeResult.noConfusion h
          · intro h
            constructor
            · intro _
              by_cases hc : (resetCommands s).control_mode_in.control_mode = TRAJECTORY
              · rw [computeOutputControlMode_traj _ dt hc] at h
                exact ComputeResult.noConfusion h
              · rw [computeOutputControlMode_other _ dt hc]
            · intro hyS
              rw [hy1] at hyS
              exact absurd hyS (by decide)
        · by_cases hy2 : s.control_mode_in.yaw_mode = YAW_SPEED
          · rw [if_neg hy1, if_pos hy2]
            refine ⟨?_, ?_, ?_⟩
            · intro h
              rw [computeOutputControlMode_notReady] at h
              cases h
            · intro h
              by_cases hc : (integrateYawRef (resetCommands s) dt).control_mode_in.control_mode = TRAJECTORY
              · rw [computeOutputControlMode_traj _ dt hc] at h
                exact ComputeResult.noConfusion h
              · rw [computeOutputControlMode_other _ dt hc] at h
                exact ComputeResult.noConfusion h
            · intro h
              constructor
              · intro hyA
                exact absurd hyA hy1
              · intro _
                by_cases hc : (integrateYawRef (resetCommands s) dt).control_mode_in.control_mode = TRAJECTORY
                · rw [computeOutputControlMode_traj _ dt hc] at h
                  exact ComputeResult.noConfusion h
                · rw [computeOutputControlMode_other _ dt hc]
          · rw [if_neg hy1, if_neg hy2]
            refine ⟨?_, ?_, ?_⟩
            · intro h
              simp [ComputeResult.isNotReady] at h
            · intro _
              rfl
            · intro h
              exact ComputeResult.noConfusion h

/-- Claim C6: the orientation error vector, half the off-diagonal extraction
of the difference between the transposed desired rotation times the current
rotation and the transposed current rotation times the desired rotation, is
zero when the two rotation matrices coincide and flips sign when the two
matrices are swapped. -/
theorem rotationError_zero_antisym (R1 R2 : Mat3) :
    rotationError R1 R1 = Vec3.zero ∧
    rotationError R2 R1 = Vec3.neg (rotationError R1 R2) := by
  constructor
  · exact rotationError_self R1
  · simp only [rotationError, rotationErrorMat, Mat3.mul, Mat3.transpose,
      Mat3.sub, Vec3.smul, Vec3.neg, Vec3.mk.injEq]
    refine ⟨by ring, by ring, by ring⟩

/-- Claim C9: the reference update silently changes nothing unless the
active control mode is trajectory, in which case it fully replaces the
stored position, velocity, acceleration and yaw triple references from the
message and sets the reference-received flag. -/
theorem updateReference_spec (s : PluginState) (m : TrajectoryPoint) :
    (s.control_mode_in.control_mode ≠ TRAJECTORY → updateReference s m = s) ∧
    (s.control_mode_in.control_mode = TRAJECTORY →
      updateReference s m =
        { s with
          control_ref :=
            { position := ⟨m.positions 0, m.positions 1, m.positions 2⟩,
              velocity := ⟨m.velocities 0, m.velocities 1, m.velocities 2⟩,
              acceleration :=
                ⟨m.accelerations 0, m.accelerations 1, m.accelerations 2⟩,
              yaw := ⟨m.positions 3, m.velocities 3, m.accelerations 3⟩ },
          flags := { s.flags with ref_received := true } }) := by
  constructor
  · intro h
    simp [updateReference, h]
  · intro h
    simp [updateReference, h]

/-- Claim C10: on a ready compute step in yaw rate mode, the stored yaw
angle reference itself is overwritten with the measured yaw advanced by the
yaw rate reference times dt, and this mutation happens before the control
mode switch, so it persists even when the invocation then fails with the
unknown-control-mode outcome. -/
theorem computeOutput_rate_mutates_ref (s : PluginState) (dt : ℝ)
    (h1 : s.flags.state_received = true) (h2 : s.flags.parameters_read = true)
    (h3 : s.flags.ref_received = true)
    (hy : s.control_mode_in.yaw_mode = YAW_SPEED) :
    ((computeOutput s dt).1.control_ref.yaw.x =
      matrixYaw (quatToRotMatrix s.uav_state.attitude_state) +
        s.control_ref.yaw.y * dt) ∧
    (s.control_mode_in.control_mode ≠ TRAJECTORY →
      (computeOutput s dt).2 = ComputeResult.unknownControlMode ∧
      (computeOutput s dt).1 = integrateYawRef (resetCommands s) dt) := by
  have hne : s.control_mode_in.yaw_mode ≠ YAW_ANGLE := by
    rw [hy]; decide
  constructor
  · exact computeOutput_speed_yaw s dt h1 h2 h3 hy
  · intro hc
    have hc2 :
        (integrateYawRef (resetCommands s) dt).control_mode_in.control_mode ≠
          TRAJECTORY := hc
    rw [computeOutput_ready s dt h1 h2 h3, if_neg hne, if_pos hy,
      computeOutputControlMode_other _ dt hc2]
    exact ⟨rfl, rfl⟩

/-- Claim C4: the mode set operation forces yaw angle mode and the fixed
local frame when hover is requested (leaving the readiness flags alone),
stores any other requested mode verbatim while clearing the state-received
and reference-received flags, always resets the transient state to the
neutral defaults, resets the force-error calculator and returns true. -/
theorem setMode_spec (s : PluginState) (im om : ControlMode) :
    ((setMode s im om).2 = true) ∧
    (im.control_mode = HOVER →
      (setMode s im om).1.control_mode_in =
        ⟨im.control_mode, YAW_ANGLE, LOCAL_ENU_FRAME⟩ ∧
      (setMode s im om).1.flags = s.flags) ∧
    (im.control_mode ≠ HOVER →
      (setMode s im om).1.control_mode_in = im ∧
      (setMode s im om).1.flags.state_received = false ∧
      (setMode s im om).1.flags.ref_received = false ∧
      (setMode s im om).1.flags.parameters_read = s.flags.parameters_read) ∧
    ((setMode s im om).1.uav_state = UAV_state_default) ∧
    ((setMode s im om).1.control_ref =
      ⟨UAV_state_default.position, Vec3.zero, Vec3.zero,
       ⟨getYawFromQuaternion UAV_state_default.attitude_state, 0, 0⟩⟩) ∧
    ((setMode s im om).1.control_command = ⟨Vec3.zero, 0⟩) ∧
    ((setMode s im om).1.pid = s.pid.resetController) := by
  by_cases him : im.control_mode = HOVER <;>
    simp [setMode, him, reset, resetState, resetReferences, resetCommands,
      PIDController3D.resetController, UAV_state_default]

theorem checkParamList_eq (pn : String) (lst : List String) (f : Bool) :
    checkParamList pn lst f =
      (lst.filter (fun q => q != pn),
       if (lst.filter (fun q => q != pn)).length = 0 then true else f) := by
  unfold checkParamList
  by_cases hp : pn ∈ lst
  · rw [if_pos hp]
  · have he : lst.filter (fun q => q != pn) = lst :=
      List.filter_eq_self.mpr fun a ha => bne_iff_ne.mpr fun h => hp (h ▸ ha)
    rw [if_neg hp, he]

theorem if_len_true (l : List String) :
    ((if l.length = 0 then true else false) = true) ↔ l = [] := by
  by_cases h : l.length = 0
  · simp [h, List.length_eq_zero.mp h]
  · simp [h]
    intro he
    exact h (by rw [he]; rfl)

theorem applyCheck_false (s : PluginState) (nm : String)
    (hf : s.flags.parameters_read = false) :
    applyCheck s nm =
      { s with
        parameters_to_read := s.parameters_to_read.filter (fun q => q != nm),
        flags := { s.flags with parameters_read :=
          if (s.parameters_to_read.filter (fun q => q != nm)).length = 0
          then true else false } } := by
  have hft : ¬(s.flags.parameters_read = true) := by simp [hf]
  simp only [applyCheck, if_neg hft, checkParamList_eq, hf]
  rfl

theorem goodPending_applyCheck (s : PluginState) (seen : List String) (nm : String)
    (hf : s.flags.parameters_read = false)
    (h2 : ∀ n : String, n ∈ s.parameters_to_read ↔ (n ∈ parameters_list ∧ n ∉ seen)) :
    GoodPending (applyCheck s nm) (seen ++ [nm]) := by
  rw [applyCheck_false s nm hf]
  refine ⟨?_, ?_⟩
  · show ((if (s.parameters_to_read.filter (fun q => q != nm)).length = 0
        then true else false) = true) ↔ _
    rw [if_len_true, List.eq_nil_iff_forall_not_mem]
    constructor
    · intro h n hn
      by_cases hs : n ∈ seen
      · simp [List.mem_append, hs]
      · by_cases hnm : n = nm
        · simp [List.mem_append, hnm]
        · exfalso
          apply h n
          rw [List.mem_filter]
          exact ⟨(h2 n).mpr ⟨hn, hs⟩, bne_iff_ne.mpr hnm⟩
    · intro h n hn
      obtain ⟨hp, hb⟩ := List.mem_filter.mp hn
      obtain ⟨hpl, hns⟩ := (h2 n).mp hp
      have hmem := h n hpl
      rw [List.mem_append, List.mem_singleton] at hmem
      rcases hmem with hs | hnm
      · exact hns hs
      · exact (bne_iff_ne.mp hb) hnm
  · intro hflag n
    show n ∈ s.parameters_to_read.filter (fun q => q != nm) ↔ _
    rw [List.mem_filter]
    constructor
    · rintro ⟨hp, hb⟩
      obtain ⟨hpl, hns⟩ := (h2 n).mp hp
      refine ⟨hpl, fun hm => ?_⟩
      rw [List.mem_append, List.mem_singleton] at hm
      rcases hm with hs | he
      · exact hns hs
      · exact (bne_iff_ne.mp hb) he
    · rintro ⟨hpl, hno⟩
      refine ⟨(h2 n).mpr ⟨hpl, fun hs => hno ?_⟩, bne_iff_ne.mpr fun he => hno ?_⟩
      · rw [List.mem_append]
        exact Or.inl hs
      · rw [List.mem_append, List.mem_singleton]
        exact Or.inr he

theorem updateDFParameter_flags_pending (s : PluginState) (n : String)
    (v : ParamValue) :
    (updateDFParameter s n v).flags = s.flags ∧
    (updateDFParameter s n v).parameters_to_read = s.parameters_to_read := by
  constructor
  · unfold updateDFParameter
    simp only [apply_ite PluginState.flags, ite_self]
  · unfold updateDFParameter
    simp only [apply_ite PluginState.parameters_to_read, ite_self]

theorem processParam_flag_true (s : PluginState) (p : Param)
    (hf : s.flags.parameters_read = true) :
    (processParam s p).flags.parameters_read = true := by
  by_cases h1 : p.name = "mass"
  · unfold processParam
    rw [if_pos h1]
    unfold applyCheck
    rw [if_pos hf]
    exact hf
  · by_cases h2 : (dotSplit p.name).1 = "trajectory_control"
    · unfold processParam
      rw [if_neg h1, if_pos h2]
      have hup := (updateDFParameter_flags_pending s (dotSplit p.name).2 p.value).1
      have hcond :
          (updateDFParameter s (dotSplit p.name).2 p.value).flags.parameters_read
            = true := by rw [hup]; exact hf
      unfold applyCheck
      rw [if_pos hcond]
      exact hcond
    · unfold processParam
      rw [if_neg h1, if_neg h2]
      exact hf

theorem goodPending_process (s : PluginState) (seen : List String) (p : Param)
    (hg : GoodPending s seen) : GoodPending (processParam s p) (seen ++ [p.name]) := by
  obtain ⟨hg1, hg2⟩ := hg
  cases hf : s.flags.parameters_read with
  | true =>
    have hft := processParam_flag_true s p hf
    refine ⟨?_, ?_⟩
    · rw [hft]
      constructor
      · intro _ n hn
        have := (hg1.mp hf) n hn
        simp [List.mem_append, this]
      · intro _
        rfl
    · intro hff
      rw [hft] at hff
      cases hff
  | false =>
    by_cases h1 : p.name = "mass"
    · have heq : processParam s p = applyCheck { s with mass := p.value.toDouble } p.name := by
        unfold processParam
        rw [if_pos h1]
      rw [heq, h1]
      exact goodPending_applyCheck _ seen "mass" hf (fun n => hg2 hf n)
    · by_cases h2 : (dotSplit p.name).1 = "trajectory_control"
      · have heq : processParam s p =
            applyCheck (updateDFParameter s (dotSplit p.name).2 p.value) p.name := by
          unfold processParam
          rw [if_neg h1, if_pos h2]
        rw [heq]
        obtain ⟨huf, hup⟩ :=
          updateDFParameter_flags_pending s (dotSplit p.name).2 p.value
        refine goodPending_applyCheck _ seen p.name ?_ ?_
        · rw [huf]; exact hf
        · intro n
          rw [hup]
          exact hg2 hf n
      · have heq : processParam s p = s := by
          unfold processParam
          rw [if_neg h1, if_neg h2]
        rw [heq]
        have hroute : ∀ n ∈ parameters_list,
            n = "mass" ∨ (dotSplit n).1 = "trajectory_control" := by decide
        have hnp : p.name ∉ parameters_list := fun hin =>
          (hroute p.name hin).elim h1 h2
        refine ⟨?_, ?_⟩
        · rw [hg1]
          constructor
          · intro h n hn
            simp [List.mem_append, h n hn]
          · intro h n hn
            have hm := h n hn
            rw [List.mem_append, List.mem_singleton] at hm
            rcases hm with hs | he
            · exact hs
            · exact absurd (he ▸ hn) hnp
        · intro hff n
          rw [hg2 hff n]
          constructor
          · rintro ⟨hpl, hns⟩
            refine ⟨hpl, fun hm => ?_⟩
            rw [List.mem_append, List.mem_singleton] at hm
            rcases hm with hs | he
            · exact hns hs
            · exact hnp (he ▸ hpl)
          · rintro ⟨hpl, hns⟩
            exact ⟨hpl, fun hs => hns (by simp [List.mem_append, hs])⟩

theorem goodPending_foldl (ps : List Param) (s : PluginState) (seen : List String)
    (hg : GoodPending s seen) :
    GoodPending (ps.foldl processParam s) (seen ++ ps.map Param.name) := by
  induction ps generalizing s seen with
  | nil => simpa using hg
  | cons p ps ih =>
    have h2 := ih (processParam s p) (seen ++ [p.name])
      (goodPending_process s seen p hg)
    simpa [List.append_assoc] using h2

theorem goodPending_runBatches (batches : List (List Param)) (s : PluginState)
    (seen : List String) (hg : GoodPending s seen) :
    GoodPending (runBatches s batches) (seen ++ batchNames batches) := by
  induction batches generalizing s seen with
  | nil => simpa [runBatches, batchNames] using hg
  | cons b bs ih =>
    have h2 := ih ((parametersCallback s b).1) (seen ++ b.map Param.name)
      (goodPending_foldl b s seen hg)
    simpa [runBatches, batchNames, List.append_assoc] using h2

theorem goodPending_init (s : PluginState) : GoodPending (ownInitialize s) [] := by
  have hflag : (ownInitialize s).flags.parameters_read = false := rfl
  have hpend : (ownInitialize s).parameters_to_read = parameters_list := rfl
  refine ⟨?_, ?_⟩
  · rw [hflag]
    constructor
    · intro h
      cases h
    · intro h
      exfalso
      have := h "mass" (by simp [parameters_list])
      simp at this
  · intro _ n
    rw [hpend]
    simp

theorem reset_flags (s : PluginState) : (reset s).flags = s.flags := rfl

theorem setMode_parameters_read (s : PluginState) (im om : ControlMode) :
    (setMode s im om).1.flags.parameters_read = s.flags.parameters_read := by
  by_cases him : im.control_mode = HOVER
  · simp only [setMode, if_pos him]
    rfl
  · simp only [setMode, if_neg him]
    rfl

theorem foldl_processParam_flag (ps : List Param) (s : PluginState)
    (hf : s.flags.parameters_read = true) :
    (ps.foldl processParam s).flags.parameters_read = true := by
  induction ps generalizing s with
  | nil => exact hf
  | cons p ps ih => exact ih (processParam s p) (processParam_flag_true s p hf)

/-- Claim C7: over any sequence of parameter batches applied to a freshly
initialized controller, the parameters-complete flag is true exactly when
every name of the initial pending set has been seen at least once (routed
names being removed from the pending list as they arrive), and once the flag
is true it stays true under every further operation on the controller. -/
theorem parameters_complete_exact (s s2 : PluginState)
    (batches : List (List Param)) :
    ((runBatches (ownInitialize s) batches).flags.parameters_read = true ↔
      ∀ n ∈ parameters_list, n ∈ batchNames batches) ∧
    (s2.flags.parameters_read = true →
      (∀ ps, (parametersCallback s2 ps).1.flags.parameters_read = true) ∧
      (∀ im om, (setMode s2 im om).1.flags.parameters_read = true) ∧
      (∀ m, (updateReference s2 m).flags.parameters_read = true) ∧
      (∀ f pos tw att, (updateState s2 f pos tw att).flags.parameters_read = true) ∧
      (∀ dt, (computeOutput s2 dt).1.flags.parameters_read = true)) := by
  constructor
  · have h := (goodPending_runBatches batches (ownInitialize s) []
      (goodPending_init s)).1
    simpa using h
  · intro hf
    refine ⟨?_, ?_, ?_, ?_, ?_⟩
    · intro ps
      exact foldl_processParam_flag ps s2 hf
    · intro im om
      rw [setMode_parameters_read]
      exact hf
    · intro m
      unfold updateReference
      split_ifs <;> exact hf
    · intro f pos tw att
      exact hf
    · intro dt
      rw [computeOutput_flags]
      exact hf

/-- Claim C7 witness: a batch covering every initially pending name flips
the parameters-complete flag to true. -/
theorem parameters_complete_exact_witness :
    (runBatches (ownInitialize baseState) [fullBatch]).flags.parameters_read
      = true :=
  (parameters_complete_exact baseState baseState [fullBatch]).1.mpr (by decide)

theorem applyCheck_pid (s : PluginState) (nm : String) :
    (applyCheck s nm).pid = s.pid := by
  unfold applyCheck
  split_ifs <;> rfl

theorem applyCheck_Kp (s : PluginState) (nm : String) :
    (applyCheck s nm).Kp_ang = s.Kp_ang := by
  unfold applyCheck
  split_ifs <;> rfl

theorem applyCheck_mass (s : PluginState) (nm : String) :
    (applyCheck s nm).mass = s.mass := by
  unfold applyCheck
  split_ifs <;> rfl

theorem updateDFParameter_mass (s : PluginState) (n : String) (v : ParamValue) :
    (updateDFParameter s n v).mass = s.mass := by
  unfold updateDFParameter
  simp only [apply_ite PluginState.mass, ite_self]

theorem zeroGainPid_computeControl (a b c d : Vec3) :
    zeroGainPid.computeControl a b c d = Vec3.zero := by
  simp [PIDController3D.computeControl, zeroGainPid, Vec3.zero, Vec3.sub]

theorem getForce_zero_hover (dt : ℝ) (pos : Vec3) :
    getForce zeroGainPid 1 dt pos Vec3.zero pos Vec3.zero Vec3.zero =
      ⟨0, 0, 9.81⟩ := by
  simp only [getForce, zeroGainPid_computeControl, gravitational_accel,
    Vec3.add, Vec3.smul, Vec3.zero, Vec3.mk.injEq]
  norm_num

theorem normalized_z (c : ℝ) (hc : 0 < c) :
    Vec3.normalized ⟨0, 0, c⟩ = ⟨0, 0, 1⟩ := by
  have hd : Vec3.dot ⟨0, 0, c⟩ ⟨0, 0, c⟩ = c * c := by
    simp [Vec3.dot]
  unfold Vec3.normalized Vec3.norm
  rw [hd, Real.sqrt_mul_self hc.le]
  simp only [Vec3.smul, Vec3.mk.injEq]
  refine ⟨by ring, by ring, ?_⟩
  field_simp

theorem normalized_unit_y : Vec3.normalized ⟨0, 1, 0⟩ = ⟨0, 1, 0⟩ := by
  have hd : Vec3.dot ⟨0, 1, 0⟩ ⟨0, 1, 0⟩ = 1 := by
    simp [Vec3.dot]
  unfold Vec3.normalized Vec3.norm
  rw [hd, Real.sqrt_one]
  simp [Vec3.smul]

theorem normalized_unit_x : Vec3.normalized ⟨1, 0, 0⟩ = ⟨1, 0, 0⟩ := by
  have hd : Vec3.dot ⟨1, 0, 0⟩ ⟨1, 0, 0⟩ = 1 := by
    simp [Vec3.dot]
  unfold Vec3.normalized Vec3.norm
  rw [hd, Real.sqrt_one]
  simp [Vec3.smul]

theorem hover_eval :
    computeTrajectoryControl zeroGainPid 1 ⟨1, 1, 1⟩ 1 Vec3.zero Vec3.zero
      Quat.identity Vec3.zero Vec3.zero Vec3.zero 0 =
      { PQR := Vec3.zero, thrust := 9.81 } := by
  have hforce := getForce_zero_hover 1 Vec3.zero
  have hrot := quatToRotMatrix_identity
  have hz : Vec3.normalized ⟨0, 0, 9.81⟩ = ⟨0, 0, 1⟩ :=
    normalized_z 9.81 (by norm_num)
  have hxc : (⟨Real.cos 0, Real.sin 0, 0⟩ : Vec3) = ⟨1, 0, 0⟩ := by
    simp [Real.cos_zero, Real.sin_zero]
  have hcross1 : Vec3.cross ⟨0, 0, 1⟩ ⟨1, 0, 0⟩ = ⟨0, 1, 0⟩ := by
    simp only [Vec3.cross, Vec3.mk.injEq]
    norm_num
  have hcross2 : Vec3.cross ⟨0, 1, 0⟩ ⟨0, 0, 1⟩ = ⟨1, 0, 0⟩ := by
    simp only [Vec3.cross, Vec3.mk.injEq]
    norm_num
  have hcols : Mat3.fromCols ⟨1, 0, 0⟩ ⟨0, 1, 0⟩ ⟨0, 0, 1⟩ = idMat := by
    simp [Mat3.fromCols, idMat]
  have hcol2 : Mat3.col2 idMat = ⟨0, 0, 1⟩ := by
    simp [Mat3.col2, idMat]
  have hnz1 : Vec3.normalized ⟨0, 0, 1⟩ = ⟨0, 0, 1⟩ :=
    normalized_z 1 (by norm_num)
  have hdot : Vec3.dot ⟨0, 0, 9.81⟩ ⟨0, 0, 1⟩ = 9.81 := by
    simp [Vec3.dot]
  simp only [computeTrajectoryControl, hforce, hrot, hxc, hz, hcross1,
    normalized_unit_y, hcross2, normalized_unit_x, hcols,
    rotationError_self, hcol2, hnz1, hdot]
  simp only [Vec3.zero, Acro_command.mk.injEq, Vec3.mk.injEq]
  norm_num

/-- Claim C2: the thrust of the trajectory control law is the desired force
(force-error output plus mass times acceleration reference plus mass times
gravity vector) projected on the measured body z-axis, and in the hover
scenario — unit mass, gravity 9.81, zero force-error gains, reference
position equal to the current position, zero velocity and acceleration
references, identity attitude and zero yaw angle reference — the computed
thrust is 9.81 and the body-rate command is the zero vector. -/
theorem thrust_projection_hover (pid : PIDController3D) (mass : ℝ)
    (Kp_ang : Vec3) (dt : ℝ) (ps vs : Vec3) (att : Quat)
    (pr vr ar : Vec3) (yr : ℝ) :
    ((computeTrajectoryControl pid mass Kp_ang dt ps vs att pr vr ar yr).thrust =
      Vec3.dot (getForce pid mass dt ps vs pr vr ar)
        (Vec3.normalized (Mat3.col2 (quatToRotMatrix att)))) ∧
    ((computeTrajectoryControl zeroGainPid 1 ⟨1, 1, 1⟩ 1 Vec3.zero Vec3.zero
        Quat.identity Vec3.zero Vec3.zero Vec3.zero 0).thrust = 9.81 ∧
     (computeTrajectoryControl zeroGainPid 1 ⟨1, 1, 1⟩ 1 Vec3.zero Vec3.zero
        Quat.identity Vec3.zero Vec3.zero Vec3.zero 0).PQR = Vec3.zero) := by
  refine ⟨rfl, ?_, ?_⟩
  · rw [hover_eval]
  · rw [hover_eval]

/-- Claim C8: the parameter callback always reports success with reason
success; the mass name updates the scalar mass and no gain, a
trajectory_control name is routed to the gain setter selected by its
subname, any other name changes nothing, and each recognized gain update
overwrites exactly its own field, leaving every unrelated field untouched. -/
theorem parametersCallback_dispatch (s : PluginState) (ps : List Param)
    (p : Param) (n : String) (v : ParamValue) :
    ((parametersCallback s ps).2 = ⟨true, "success"⟩) ∧
    (p.name = "mass" →
      (processParam s p).mass = p.value.toDouble ∧
      (processParam s p).pid = s.pid ∧
      (processParam s p).Kp_ang = s.Kp_ang) ∧
    (p.name ≠ "mass" → (dotSplit p.name).1 = "trajectory_control" →
      (processParam s p).pid =
        (updateDFParameter s (dotSplit p.name).2 p.value).pid ∧
      (processParam s p).Kp_ang =
        (updateDFParameter s (dotSplit p.name).2 p.value).Kp_ang ∧
      (processParam s p).mass = s.mass) ∧
    (p.name ≠ "mass" → (dotSplit p.name).1 ≠ "trajectory_control" →
      processParam s p = s) ∧
    (updateDFParameter s "reset_integral" v =
      { s with pid := { s.pid with reset_integral_flag := v.toBool } }) ∧
    (updateDFParameter s "antiwindup_cte" v =
      { s with pid := { s.pid with antiwindup_cte := v.toDouble } }) ∧
    (updateDFParameter s "alpha" v =
      { s with pid := { s.pid with alpha := v.toDouble } }) ∧
    (updateDFParameter s "kp.x" v =
      { s with pid := { s.pid with kp := { s.pid.kp with x := v.toDouble } } }) ∧
    (updateDFParameter s "kp.y" v =
      { s with pid := { s.pid with kp := { s.pid.kp with y := v.toDouble } } }) ∧
    (updateDFParameter s "kp.z" v =
      { s with pid := { s.pid with kp := { s.pid.kp with z := v.toDouble } } }) ∧
    (updateDFParameter s "ki.x" v =
      { s with pid := { s.pid with ki := { s.pid.ki with x := v.toDouble } } }) ∧
    (updateDFParameter s "ki.y" v =
      { s with pid := { s.pid with ki := { s.pid.ki with y := v.toDouble } } }) ∧
    (updateDFParameter s "ki.z" v =
      { s with pid := { s.pid with ki := { s.pid.ki with z := v.toDouble } } }) ∧
    (updateDFParameter s "kd.x" v =
      { s with pid := { s.pid with kd := { s.pid.kd with x := v.toDouble } } }) ∧
    (updateDFParameter s "kd.y" v =
      { s with pid := { s.pid with kd := { s.pid.kd with y := v.toDouble } } }) ∧
    (updateDFParameter s "kd.z" v =
      { s with pid := { s.pid with kd := { s.pid.kd with z := v.toDouble } } }) ∧
    (updateDFParameter s "roll_control.kp" v =
      { s with Kp_ang := { s.Kp_ang with x := v.toDouble } }) ∧
    (updateDFParameter s "pitch_control.kp" v =
      { s with Kp_ang := { s.Kp_ang with y := v.toDouble } }) ∧
    (updateDFParameter s "yaw_control.kp" v =
      { s with Kp_ang := { s.Kp_ang with z := v.toDouble } }) ∧
    (n ∉ recognizedSubnames → updateDFParameter s n v = s) := by
  refine ⟨rfl, ?_, ?_, ?_, ?_, ?_, ?_, ?_, ?_, ?_, ?_, ?_, ?_, ?_, ?_, ?_, ?_,
    ?_, ?_, ?_⟩
  · intro h1
    have heq : processParam s p = applyCheck { s with mass := p.value.toDouble } p.name := by
      unfold processParam
      rw [if_pos h1]
    rw [heq]
    refine ⟨?_, ?_, ?_⟩
    · rw [applyCheck_mass]
    · rw [applyCheck_pid]
    · rw [applyCheck_Kp]
  · intro h1 h2
    have heq : processParam s p =
        applyCheck (updateDFParameter s (dotSplit p.name).2 p.value) p.name := by
      unfold processParam
      rw [if_neg h1, if_pos h2]
    rw [heq]
    refine ⟨?_, ?_, ?_⟩
    · rw [applyCheck_pid]
    · rw [applyCheck_Kp]
    · rw [applyCheck_mass, updateDFParameter_mass]
  · intro h1 h2
    unfold processParam
    rw [if_neg h1, if_neg h2]
  · simp [updateDFParameter]
  · simp [updateDFParameter]
  · simp [updateDFParameter]
  · simp [updateDFParameter]
  · simp [updateDFParameter]
  · simp [updateDFParameter]
  · simp [updateDFParameter]
  · simp [updateDFParameter]
  · simp [updateDFParameter]
  · simp [updateDFParameter]
  · simp [updateDFParameter]
  · simp [updateDFParameter]
  · simp [updateDFParameter]
  · simp [updateDFParameter]
  · simp [updateDFParameter]
  · intro hn
    simp only [recognizedSubnames, List.mem_cons, List.mem_singleton,
      not_or] at hn
    obtain ⟨e1, e2, e3, e4, e5, e6, e7, e8, e9, e10, e11, e12, e13, e14, e15⟩ := hn
    simp [updateDFParameter, e1, e2, e3, e4, e5, e6, e7, e8, e9, e10, e11,
      e12, e13, e14, e15]

/-- Claim C8 witness: a name that is neither mass nor a trajectory_control
path leaves the state untouched. -/
theorem parametersCallback_dispatch_witness :
    processParam baseState ⟨"foo", ParamValue.d 1⟩ = baseState :=
  (parametersCallback_dispatch baseState [] ⟨"foo", ParamValue.d 1⟩ "x"
    (ParamValue.d 0)).2.2.2.1 (by decide) (by decide)

/-- Claim C1 witness: on a state that has not received the vehicle state the
compute step reports the state-missing outcome. -/
theorem computeOutput_readiness_gate_witness :
    (computeOutput baseState 1).2 = ComputeResult.notReadyState :=
  (computeOutput_readiness_gate baseState 1).2.1.mpr rfl

/-- Claim C3 witness: yaw rate 1, dt one tenth and measured yaw zero resolve
the working yaw angle to one tenth. -/
theorem computeOutput_yaw_modes_witness :
    (computeOutput rateState (1 / 10)).1.control_ref.yaw.x = 1 / 10 := by
  have h := (computeOutput_yaw_modes rateState (1 / 10) rfl rfl rfl).2.1 rfl
  rw [h]
  have ha : rateState.uav_state.attitude_state = Quat.identity := rfl
  rw [ha, quatToRotMatrix_identity, matrixYaw_idMat]
  have hy : rateState.control_ref.yaw.y = 1 := rfl
  rw [hy]
  norm_num

/-- Claim C4 witness: a hover request with arbitrary yaw mode and frame is
stored with yaw angle mode and the fixed local ENU frame. -/
theorem setMode_spec_witness :
    (setMode baseState ⟨HOVER, 42, 9⟩ ⟨0, 0, 0⟩).1.control_mode_in =
      ⟨HOVER, YAW_ANGLE, LOCAL_ENU_FRAME⟩ :=
  ((setMode_spec baseState ⟨HOVER, 42, 9⟩ ⟨0, 0, 0⟩).2.1 rfl).1

/-- Claim C5 witness: a not-ready invocation leaves the state unchanged. -/
theorem computeOutput_failure_frame_witness :
    (computeOutput baseState 1).1 = baseState :=
  (computeOutput_failure_frame baseState 1).1 rfl

/-- Claim C6 witness: the orientation error of the identity matrix against
itself is the zero vector. -/
theorem rotationError_zero_antisym_witness :
    rotationError idMat idMat = Vec3.zero :=
  (rotationError_zero_antisym idMat idMat).1

/-- Claim C9 witness: while the active control mode is hover, a reference
message is silently ignored. -/
theorem updateReference_spec_witness :
    updateReference hoverModeState ⟨fun j => 1, fun j => 2, fun j => 3⟩ =
      hoverModeState :=
  (updateReference_spec hoverModeState ⟨fun j => 1, fun j => 2, fun j => 3⟩).1
    (by decide)

/-- Claim C10 witness: a ready yaw-rate tick with an unknown control mode
fails with the unknown-control-mode outcome yet stores the integrated yaw
angle in the reference. -/
theorem computeOutput_rate_mutates_ref_witness :
    (computeOutput rateBadState 1).2 = ComputeResult.unknownControlMode ∧
    (computeOutput rateBadState 1).1.control_ref.yaw.x = 1 := by
  have h := computeOutput_rate_mutates_ref rateBadState 1 rfl rfl rfl rfl
  refine ⟨(h.2 (by decide)).1, ?_⟩
  rw [h.1]
  have ha : rateBadState.uav_state.attitude_state = Quat.identity := rfl
  rw [ha, quatToRotMatrix_identity, matrixYaw_idMat]
  have hy : rateBadState.control_ref.yaw.y = 1 := rfl
  rw [hy]
  norm_num

end DFC
